import Mathlib

/-!
Verification of the agenttrace Python SDK core (event-delivery pipeline):
a shallow embedding of `transport/http.py`, `transport/batch.py`,
`client.py`, `context.py` and `decorators.py`, with theorems settling the
spec's claims about ordering, end-once semantics, retry policy, flush
thresholds, error passthrough, the disabled mode, parent resolution and
context scoping.

Conventions of the embedding:
- Python `dict` payloads are modelled by the JSON-like type `Val`;
  association lists keep Python's insertion order.
- Wall-clock reads (`datetime.utcnow()`, `time.time()`) and generated ids
  (`uuid.uuid4()`) are passed in as explicit arguments.
- Event bodies carry ISO-8601 timestamps; these are modelled by the
  dedicated constructor `Val.time` over an integer clock.
- Enqueuing to the batch queue is modelled by returning the list of event
  records a call hands to `BatchQueue.add`, in order.
-/

/-- A JSON-like value: the payloads of event-record bodies
(`Dict[str, Any]` in the Python source). `Val.time t` stands for the
ISO-8601 rendering `t.isoformat() + "Z"` of a timestamp `t`. -/
inductive Val where
  | null : Val
  | str (s : String) : Val
  | num (n : Int) : Val
  | bool (b : Bool) : Val
  | time (t : Int) : Val
  | list (xs : List Val) : Val
  | obj (kvs : List (String × Val)) : Val
deriving Repr, BEq

/-- Python `None`-or-string rendered into a body field. -/
def optStr : Option String → Val
  | none => Val.null
  | some s => Val.str s

/-- Python `None`-or-value rendered into a body field. -/
def optVal : Option Val → Val
  | none => Val.null
  | some v => v

/-- Python `None`-or-timestamp rendered into a body field. -/
def optTime : Option Int → Val
  | none => Val.null
  | some t => Val.time t

/-- One event record as handed to `BatchQueue.add`:
`{"type": ..., "body": {...}}` in the source. -/
structure EventRecord where
  type : String
  body : List (String × Val)
deriving Repr, BEq

namespace HttpTransport

/-- Outcome of one `httpx` request as seen by the `try`/`except` blocks of
`HttpTransport.send_batch`: a status response, a timeout, a request error,
or any other exception. -/
inductive HttpResponse where
  | status (code : Nat) : HttpResponse
  | timeout : HttpResponse
  | requestError : HttpResponse
  | otherError : HttpResponse
deriving Repr, DecidableEq

/-- The retry loop of `HttpTransport.send_batch` (`for attempt in
range(self.max_retries)`), run from attempt number `attempt` against a
server whose answer to the n-th request is `resp n`. Returns the boolean
result together with the total number of HTTP requests made.
2xx-accepted codes (200/201/207) return `True`; 429 sleeps and retries;
`>= 500` backs off and retries; any other status is a client error
returning `False` without retry; timeouts and request errors retry; any
other exception returns `False`. -/
def sendBatchLoop (maxRetries : Nat) (resp : Nat → HttpResponse) (attempt : Nat) :
    Bool × Nat :=
  if attempt < maxRetries then
    match resp attempt with
    | .status c =>
      if c = 200 ∨ c = 201 ∨ c = 207 then (true, attempt + 1)
      else if c = 429 then sendBatchLoop maxRetries resp (attempt + 1)
      else if 500 ≤ c then sendBatchLoop maxRetries resp (attempt + 1)
      else (false, attempt + 1)
    | .timeout => sendBatchLoop maxRetries resp (attempt + 1)
    | .requestError => sendBatchLoop maxRetries resp (attempt + 1)
    | .otherError => (false, attempt + 1)
  else (false, attempt)
termination_by maxRetries - attempt

/-- `HttpTransport.send_batch(events)`: empty batches return `True` with no
request; otherwise the retry loop runs from attempt 0. The result pairs the
returned boolean with the number of HTTP requests made. -/
def send_batch (maxRetries : Nat) (resp : Nat → HttpResponse)
    (events : List EventRecord) : Bool × Nat :=
  if events.isEmpty then (true, 0)
  else sendBatchLoop maxRetries resp 0

/-- A server that answers 500 to the first two requests and 200 afterwards. -/
def respFiveHundredTwice : Nat → HttpResponse := fun n =>
  if n < 2 then .status 500 else .status 200

/-- A server that always answers 404. -/
def respAlways404 : Nat → HttpResponse := fun _ => .status 404

end HttpTransport

/-- CLAIM C4: with `max_retries = 3`, `send_batch` against a server
answering 500, 500, 200 returns `true` after exactly 3 HTTP requests, and
against a server always answering 404 returns `false` after exactly 1
request (no retry). -/
theorem send_batch_retry_policy (events : List EventRecord)
    (h : events.isEmpty = false) :
    HttpTransport.send_batch 3 HttpTransport.respFiveHundredTwice events = (true, 3) ∧
    HttpTransport.send_batch 3 HttpTransport.respAlways404 events = (false, 1) := by
  constructor <;>
    simp [HttpTransport.send_batch, h, HttpTransport.sendBatchLoop,
      HttpTransport.respFiveHundredTwice, HttpTransport.respAlways404]

/-- Witness for C4: the retry-policy theorem applied to a concrete
one-record batch. -/
theorem send_batch_retry_policy_witness :
    HttpTransport.send_batch 3 HttpTransport.respFiveHundredTwice
        [⟨"trace-create", []⟩] = (true, 3) ∧
    HttpTransport.send_batch 3 HttpTransport.respAlways404
        [⟨"trace-create", []⟩] = (false, 1) :=
  send_batch_retry_policy [⟨"trace-create", []⟩] rfl

namespace BatchQueue

/-- State of `BatchQueue` (`transport/batch.py`): the shared FIFO
`queue.Queue` (head = oldest), the worker's accumulating `_batch`, and the
configuration. `lastFlush` is the `last_flush` local of `_flush_loop`. -/
structure State where
  queue : List EventRecord
  batch : List EventRecord
  flushAt : Nat
  flushInterval : Int
  maxQueueSize : Nat
  lastFlush : Int
deriving Repr

/-- `BatchQueue.add(event)`: `put_nowait` appends to the shared queue and
returns `True`, unless the queue already holds `maxsize` items, in which
case the event is dropped and `False` is returned. -/
def add (e : EventRecord) (s : State) : State × Bool :=
  if s.maxQueueSize ≤ s.queue.length then (s, false)
  else ({ s with queue := s.queue ++ [e] }, true)

/-- `BatchQueue.flush()`: drains the shared queue into a local `events`
list, then `events.extend(self._batch)` appends the accumulated batch
AFTER the drained queue entries, clears both, and hands the combined list
to `_send_batch` when non-empty. Returns the new state and the list given
to `_send_batch` (empty when nothing was sent). -/
def flush (s : State) : State × List EventRecord :=
  let events := s.queue ++ s.batch
  ({ s with queue := [], batch := [] }, events)

/-- One iteration of the `_flush_loop` worker: `self._queue.get(timeout=0.1)`
moves at most one event from the shared queue into `_batch` (a timeout moves
none), then the flush condition
`len(batch) >= flush_at or (batch and now - last_flush >= flush_interval)`
is evaluated at clock `now`; when it holds, the batch is cleared and
`last_flush` updated, and the drained events go to `_send_batch` (which
ignores an empty list). Returns the new state and the list sent. -/
def flushLoopIter (now : Int) (s : State) : State × List EventRecord :=
  let s₁ :=
    match s.queue with
    | [] => s
    | e :: rest => { s with queue := rest, batch := s.batch ++ [e] }
  let shouldFlush : Bool :=
    decide (s.flushAt ≤ s₁.batch.length) ||
      (!s₁.batch.isEmpty && decide (s.flushInterval ≤ now - s.lastFlush))
  if shouldFlush then
    ({ s₁ with batch := [], lastFlush := now }, s₁.batch)
  else (s₁, [])

/-- The batch accumulated after the dequeue step of one `_flush_loop`
iteration: `_batch` extended with the head of the shared queue, if any. -/
def drainedBatch (s : State) : List EventRecord :=
  match s.queue with
  | [] => s.batch
  | e :: _ => s.batch ++ [e]

/-- An empty queue with the default configuration
(`flush_at=20`, `flush_interval=5.0`, `max_queue_size=10000`), worker
started at clock 0. -/
def initial : State :=
  { queue := [], batch := [], flushAt := 20, flushInterval := 5,
    maxQueueSize := 10000, lastFlush := 0 }

/-- The first record a producer adds in the C1 interleaving. -/
def recR1 : EventRecord := ⟨"span-create", [("id", Val.str "R1")]⟩

/-- The second record the same producer adds in the C1 interleaving. -/
def recR2 : EventRecord := ⟨"span-update", [("id", Val.str "R2")]⟩

end BatchQueue

/-- CLAIM C1 (code bug): an interleaving violating per-producer FIFO. One
producer adds R1, the background worker's next iteration moves R1 from the
shared queue into the accumulated batch (without sending: the batch is
below `flush_at` and the interval has not elapsed), the producer adds R2,
and then `flush()` delivers the batch `[R2, R1]` to Transport: R2 before
R1, because `flush` appends the worker's (older) accumulated batch after
the (newer) drained queue entries. -/
theorem flush_reorders_producer_records :
    (BatchQueue.flushLoopIter 0
        (BatchQueue.add BatchQueue.recR1 BatchQueue.initial).1).2 = [] ∧
    (BatchQueue.flush
        (BatchQueue.add BatchQueue.recR2
          (BatchQueue.flushLoopIter 0
            (BatchQueue.add BatchQueue.recR1 BatchQueue.initial).1).1).1).2
      = [BatchQueue.recR2, BatchQueue.recR1] := by
  constructor <;> rfl

/-- CLAIM C5: one iteration of the background flush worker hands a batch to
Transport exactly when, after draining at most one newly queued record into
the accumulated batch, either the batch has reached `flush_at` records or
`flush_interval` seconds have elapsed since the last send while at least
one record is pending; in particular with fewer than `flush_at` records and
the interval not yet elapsed, nothing is sent. What is sent is exactly the
accumulated batch. -/
theorem flush_loop_send_condition (now : Int) (s : BatchQueue.State) :
    ((BatchQueue.flushLoopIter now s).2 ≠ [] ↔
      BatchQueue.drainedBatch s ≠ [] ∧
        (s.flushAt ≤ (BatchQueue.drainedBatch s).length ∨
          s.flushInterval ≤ now - s.lastFlush)) ∧
    ((BatchQueue.flushLoopIter now s).2 ≠ [] →
      (BatchQueue.flushLoopIter now s).2 = BatchQueue.drainedBatch s) ∧
    (((BatchQueue.drainedBatch s).length < s.flushAt ∧
        now - s.lastFlush < s.flushInterval) →
      (BatchQueue.flushLoopIter now s).2 = []) := by
  unfold BatchQueue.flushLoopIter BatchQueue.drainedBatch
  cases hq : s.queue with
  | nil =>
    simp only [List.isEmpty_iff, Bool.or_eq_true, Bool.and_eq_true,
      Bool.not_eq_true', decide_eq_true_eq, decide_eq_false_iff_not]
    split_ifs with h <;> by_cases h3 : s.batch = [] <;>
      simp_all [List.isEmpty_iff] <;> omega
  | cons e rest =>
    simp only [List.isEmpty_iff, Bool.or_eq_true, Bool.and_eq_true,
      Bool.not_eq_true', decide_eq_true_eq, decide_eq_false_iff_not]
    split_ifs with h <;> simp_all [List.isEmpty_iff] <;> omega

/-- A queue holding one accumulated record, default configuration, worker
last flushed at clock 0. -/
def BatchQueue.oneRecState : BatchQueue.State :=
  { queue := [], batch := [BatchQueue.recR1], flushAt := 20, flushInterval := 5,
    maxQueueSize := 10000, lastFlush := 0 }

/-- Witness for C5: with one accumulated record (below `flush_at = 20`),
the worker sends nothing at clock 0 (interval not elapsed) and sends at
clock 5 (interval elapsed). -/
theorem flush_loop_send_condition_witness :
    (BatchQueue.flushLoopIter 0 BatchQueue.oneRecState).2 = [] ∧
    (BatchQueue.flushLoopIter 5 BatchQueue.oneRecState).2 ≠ [] :=
  ⟨(flush_loop_send_condition 0 BatchQueue.oneRecState).2.2
      ⟨by simp [BatchQueue.oneRecState, BatchQueue.drainedBatch],
       by norm_num [BatchQueue.oneRecState]⟩,
   (flush_loop_send_condition 5 BatchQueue.oneRecState).1.mpr
      ⟨by simp [BatchQueue.oneRecState, BatchQueue.drainedBatch],
       Or.inr (by norm_num [BatchQueue.oneRecState])⟩⟩

namespace Context

/-- The two context variables of `context.py` relevant to scoping:
`_trace_var` and `_observation_var` (traces and observations are referred
to by id). `contextvars.ContextVar.set` returns a token holding the prior
value; `reset(token)` writes that prior value back. -/
structure Vars where
  traceVar : Option String
  obsVar : Option String
deriving Repr, DecidableEq

/-- A user program made of leaves (which may raise), sequencing, and the
two scoped context managers `TraceContext` / `ObservationContext`. -/
inductive Prog where
  | leaf (raises : Bool) : Prog
  | seq (p q : Prog) : Prog
  | scopedTrace (tr : String) (body : Prog) : Prog
  | scopedObs (ob : String) (body : Prog) : Prog

/-- Interpreter for `Prog` over the context variables. A leaf records the
pair of current values it observes and reports whether it raised; `seq`
propagates an exception past the second component; `scopedTrace tr body`
is `with TraceContext(trace): body` — `__enter__` saves the old value in a
token and sets `_trace_var` to the new trace, and `__exit__` resets the
token on both normal and exceptional exit (so the exception keeps
propagating); `scopedObs` likewise for `_observation_var`. Returns the
final context, whether an exception is propagating, and the observations
logged at leaves in execution order. -/
def runProg : Prog → Vars → Vars × Bool × List (Option String × Option String)
  | .leaf r, c => (c, r, [(c.traceVar, c.obsVar)])
  | .seq p q, c =>
    match runProg p c with
    | (c₁, true, l₁) => (c₁, true, l₁)
    | (c₁, false, l₁) =>
      match runProg q c₁ with
      | (c₂, r₂, l₂) => (c₂, r₂, l₁ ++ l₂)
  | .scopedTrace tr body, c =>
    let token := c.traceVar
    match runProg body { c with traceVar := some tr } with
    | (c₁, r, l) => ({ c₁ with traceVar := token }, r, l)
  | .scopedObs ob body, c =>
    let token := c.obsVar
    match runProg body { c with obsVar := some ob } with
    | (c₁, r, l) => ({ c₁ with obsVar := token }, r, l)

/-- Any program built from leaves, sequencing and the two scoped context
managers leaves both context variables exactly as it found them, whether
or not an exception propagates out of it. -/
theorem runProg_restores (p : Prog) (c : Vars) : (runProg p c).1 = c := by
  induction p generalizing c with
  | leaf r => rfl
  | seq p q ihp ihq =>
    simp only [runProg]
    rcases hp : runProg p c with ⟨c₁, r₁, l₁⟩
    have hc₁ : c₁ = c := by have := ihp c; rw [hp] at this; exact this
    subst hc₁
    cases r₁ with
    | true => rfl
    | false =>
      rcases hq : runProg q c₁ with ⟨c₂, r₂, l₂⟩
      have hc₂ : c₂ = c₁ := by have := ihq c₁; rw [hq] at this; exact this
      simp [hq, hc₂]
  | scopedTrace tr body ih =>
    obtain ⟨ct, co⟩ := c
    simp only [runProg]
    rcases hb : runProg body ⟨some tr, co⟩ with ⟨c₁, r, l⟩
    have hc₁ : c₁ = ⟨some tr, co⟩ := by
      have := ih ⟨some tr, co⟩; rw [hb] at this; exact this
    simp [hb, hc₁]
  | scopedObs ob body ih =>
    obtain ⟨ct, co⟩ := c
    simp only [runProg]
    rcases hb : runProg body ⟨ct, some ob⟩ with ⟨c₁, r, l⟩
    have hc₁ : c₁ = ⟨ct, some ob⟩ := by
      have := ih ⟨ct, some ob⟩; rw [hb] at this; exact this
    simp [hb, hc₁]

end Context

/-- CLAIM C9: entering a `TraceContext` (resp. `ObservationContext`) makes
the entered value current for the duration of the scope — a leaf directly
inside the scope observes it — and exiting the scope, normally or via an
exception and at arbitrary nesting depth, restores exactly the context
that was current before entry. -/
theorem context_scope_round_trip (tr ob : String) (p : Context.Prog)
    (c : Context.Vars) (b : Bool) :
    (Context.runProg (Context.Prog.scopedTrace tr p) c).1 = c ∧
    (Context.runProg (Context.Prog.scopedObs ob p) c).1 = c ∧
    (Context.runProg (Context.Prog.scopedTrace tr (Context.Prog.leaf b)) c).2.2
      = [(some tr, c.obsVar)] ∧
    (Context.runProg (Context.Prog.scopedObs ob (Context.Prog.leaf b)) c).2.2
      = [(c.traceVar, some ob)] ∧
    (Context.runProg (Context.Prog.scopedTrace tr (Context.Prog.leaf b)) c).2.1 = b := by
  refine ⟨Context.runProg_restores _ c, Context.runProg_restores _ c, rfl, rfl, rfl⟩

namespace Client

/-- Python `dict.update(u)` on an insertion-ordered association list:
existing keys keep their position and get the new value, new keys are
appended in order. Used for `self.metadata.update(metadata)`. -/
def dictUpdate (d u : List (String × Val)) : List (String × Val) :=
  d.map (fun kv =>
    match u.find? (fun x => x.1 == kv.1) with
    | some x => (kv.1, x.2)
    | none => kv) ++
  u.filter (fun x => d.all (fun kv => kv.1 != x.1))

/-- The attributes of a `Trace` object (`client.py`, class `Trace`). -/
structure TraceState where
  id : String
  name : String
  userId : Option String
  sessionId : Option String
  metadata : List (String × Val)
  tags : List String
  input : Option Val
  public : Bool
  startTime : Int
  endTime : Option Int
  output : Option Val
  ended : Bool
deriving Repr

/-- `Trace.__init__` followed by `_send_create`: initialises every field,
records `start_time = now`, and, when the client is enabled, enqueues one
`trace-create` record with the full body; when disabled, `_send_create`
returns before enqueuing. -/
def Trace.create (enabled : Bool) (id name : String)
    (userId sessionId : Option String) (metadata : List (String × Val))
    (tags : List String) (input : Option Val) (pub : Bool) (now : Int) :
    TraceState × List EventRecord :=
  let s : TraceState :=
    { id := id, name := name, userId := userId, sessionId := sessionId,
      metadata := metadata, tags := tags, input := input, public := pub,
      startTime := now, endTime := none, output := none, ended := false }
  (s, if enabled then
        [⟨"trace-create",
          [("id", Val.str s.id), ("name", Val.str s.name),
           ("userId", optStr s.userId), ("sessionId", optStr s.sessionId),
           ("metadata", Val.obj s.metadata),
           ("tags", Val.list (s.tags.map Val.str)),
           ("input", optVal s.input), ("public", Val.bool s.public),
           ("timestamp", Val.time s.startTime)]⟩]
      else [])

/-- The optional keyword arguments of `Trace.update`. -/
structure TraceUpdateArgs where
  name : Option String := none
  userId : Option String := none
  sessionId : Option String := none
  metadata : Option (List (String × Val)) := none
  tags : Option (List String) := none
  input : Option Val := none
  output : Option Val := none
  public : Option Bool := none
deriving Repr

/-- `Trace.update(...)`: applies every provided field (metadata is merged
key-wise via `dict.update`, tags are replaced) and, when the client is
enabled, enqueues one `trace-update` record with the full current state.
There is no check of `self._ended`. -/
def Trace.update (enabled : Bool) (a : TraceUpdateArgs) (s : TraceState) :
    TraceState × List EventRecord :=
  let s : TraceState :=
    { s with
      name := a.name.getD s.name
      userId := a.userId <|> s.userId
      sessionId := a.sessionId <|> s.sessionId
      metadata := match a.metadata with
        | some m => dictUpdate s.metadata m
        | none => s.metadata
      tags := a.tags.getD s.tags
      input := a.input <|> s.input
      output := a.output <|> s.output
      public := a.public.getD s.public }
  (s, if enabled then
        [⟨"trace-update",
          [("id", Val.str s.id), ("name", Val.str s.name),
           ("userId", optStr s.userId), ("sessionId", optStr s.sessionId),
           ("metadata", Val.obj s.metadata),
           ("tags", Val.list (s.tags.map Val.str)),
           ("input", optVal s.input), ("output", optVal s.output),
           ("public", Val.bool s.public)]⟩]
      else [])

/-- `Trace.end()`: returns immediately when already ended; otherwise sets
`_ended`, `end_time = now`, applies a provided output, enqueues the final
update via `self.update(output=self.output)`, and unconditionally runs
`set_current_trace(None)` on the context. -/
def Trace.end_ (enabled : Bool) (output : Option Val) (now : Int)
    (s : TraceState) (ctx : Context.Vars) :
    TraceState × List EventRecord × Context.Vars :=
  if s.ended then (s, [], ctx)
  else
    let s₁ : TraceState :=
      { s with
        ended := true
        endTime := some now
        output := output <|> s.output }
    let u := Trace.update enabled { output := s₁.output } s₁
    (u.1, u.2, { ctx with traceVar := none })

/-- The attributes of a `Span` object (`client.py`, class `Span`). -/
structure SpanState where
  traceId : String
  id : String
  name : String
  parentObservationId : Option String
  metadata : List (String × Val)
  input : Option Val
  level : String
  output : Option Val
  startTime : Int
  endTime : Option Int
  ended : Bool
deriving Repr

/-- `Span.__init__` followed by `_send_create`: when enabled, enqueues one
`span-create` record; `parent_observation_id` is stored exactly as passed. -/
def Span.create (enabled : Bool) (traceId id name : String)
    (parentObservationId : Option String) (metadata : List (String × Val))
    (input : Option Val) (level : String) (now : Int) :
    SpanState × List EventRecord :=
  let s : SpanState :=
    { traceId := traceId, id := id, name := name,
      parentObservationId := parentObservationId, metadata := metadata,
      input := input, level := level, output := none, startTime := now,
      endTime := none, ended := false }
  (s, if enabled then
        [⟨"span-create",
          [("id", Val.str s.id), ("traceId", Val.str s.traceId),
           ("parentObservationId", optStr s.parentObservationId),
           ("name", Val.str s.name), ("metadata", Val.obj s.metadata),
           ("input", optVal s.input), ("level", Val.str s.level),
           ("startTime", Val.time s.startTime)]⟩]
      else [])

/-- `Span.end()`: returns immediately when already ended; otherwise sets
`_ended`, `end_time = now`, applies a provided output, and, when enabled,
enqueues one `span-update` record. -/
def Span.end_ (enabled : Bool) (output : Option Val) (now : Int)
    (s : SpanState) : SpanState × List EventRecord :=
  if s.ended then (s, [])
  else
    let s₁ : SpanState :=
      { s with
        ended := true
        endTime := some now
        output := output <|> s.output }
    (s₁, if enabled then
          [⟨"span-update",
            [("id", Val.str s₁.id), ("output", optVal s₁.output),
             ("endTime", Val.time now)]⟩]
        else [])

/-- The attributes of a `Generation` object (`client.py`,
class `Generation`). -/
structure GenerationState where
  traceId : String
  id : String
  name : String
  parentObservationId : Option String
  model : Option String
  modelParameters : List (String × Val)
  input : Option Val
  metadata : List (String × Val)
  level : String
  output : Option Val
  startTime : Int
  endTime : Option Int
  usage : Option Val
  ended : Bool
deriving Repr

/-- `Generation.__init__` followed by `_send_create`: when enabled,
enqueues one `generation-create` record. -/
def Generation.create (enabled : Bool) (traceId id name : String)
    (parentObservationId : Option String) (model : Option String)
    (modelParameters : List (String × Val)) (input : Option Val)
    (metadata : List (String × Val)) (level : String) (now : Int) :
    GenerationState × List EventRecord :=
  let s : GenerationState :=
    { traceId := traceId, id := id, name := name,
      parentObservationId := parentObservationId, model := model,
      modelParameters := modelParameters, input := input,
      metadata := metadata, level := level, output := none,
      startTime := now, endTime := none, usage := none, ended := false }
  (s, if enabled then
        [⟨"generation-create",
          [("id", Val.str s.id), ("traceId", Val.str s.traceId),
           ("parentObservationId", optStr s.parentObservationId),
           ("name", Val.str s.name), ("model", optStr s.model),
           ("modelParameters", Val.obj s.modelParameters),
           ("input", optVal s.input), ("metadata", Val.obj s.metadata),
           ("level", Val.str s.level),
           ("startTime", Val.time s.startTime)]⟩]
      else [])

/-- `Generation.end()`: returns immediately when already ended; otherwise
sets `_ended`, `end_time = now`, applies any provided output, usage and
model, and, when enabled, enqueues one `generation-update` record. -/
def Generation.end_ (enabled : Bool) (output usage : Option Val)
    (model : Option String) (now : Int) (s : GenerationState) :
    GenerationState × List EventRecord :=
  if s.ended then (s, [])
  else
    let s₁ : GenerationState :=
      { s with
        ended := true
        endTime := some now
        output := output <|> s.output
        usage := usage <|> s.usage
        model := model <|> s.model }
    (s₁, if enabled then
          [⟨"generation-update",
            [("id", Val.str s₁.id), ("output", optVal s₁.output),
             ("usage", optVal s₁.usage), ("model", optStr s₁.model),
             ("endTime", Val.time now)]⟩]
        else [])

/-- `Trace.span(...)`: builds a child `Span` of this trace. The
`parent_observation_id` argument is forwarded exactly as supplied (default
`None`); the Context Store is not consulted. -/
def Trace.span (enabled : Bool) (s : TraceState) (id name : String)
    (parentObservationId : Option String) (metadata : List (String × Val))
    (input : Option Val) (level : String) (now : Int) :
    SpanState × List EventRecord :=
  Span.create enabled s.id id name parentObservationId metadata input level now

/-- `Trace.generation(...)`: builds a child `Generation` of this trace.
The `parent_observation_id` argument is forwarded exactly as supplied
(default `None`); the Context Store is not consulted. -/
def Trace.generation (enabled : Bool) (s : TraceState) (id name : String)
    (parentObservationId : Option String) (model : Option String)
    (modelParameters : List (String × Val)) (input : Option Val)
    (metadata : List (String × Val)) (level : String) (now : Int) :
    GenerationState × List EventRecord :=
  Generation.create enabled s.id id name parentObservationId model
    modelParameters input metadata level now

/-- `AgentTrace.trace(...)`: constructs the `Trace` (generated ids are the
explicit `genId` argument, used when no id was supplied) and registers it
as the current trace in the Context Store. -/
def AgentTrace.trace (enabled : Bool) (idArg : Option String)
    (genId : String) (name : String) (userId sessionId : Option String)
    (metadata : List (String × Val)) (tags : List String)
    (input : Option Val) (pub : Bool) (now : Int) (ctx : Context.Vars) :
    TraceState × List EventRecord × Context.Vars :=
  let t := Trace.create enabled (idArg.getD genId) name userId sessionId
    metadata tags input pub now
  (t.1, t.2, { ctx with traceVar := some t.1.id })

/-- `AgentTrace.score(...)`: when disabled, returns without enqueuing;
otherwise enqueues one `score-create` record (the generated uuid is the
explicit `scoreId` argument). -/
def AgentTrace.score (enabled : Bool) (scoreId traceId name : String)
    (value : Val) (observationId : Option String) (dataType : String)
    (comment : Option String) : List EventRecord :=
  if enabled then
    [⟨"score-create",
      [("id", Val.str scoreId), ("traceId", Val.str traceId),
       ("observationId", optStr observationId), ("name", Val.str name),
       ("value", value), ("dataType", Val.str dataType),
       ("comment", optStr comment), ("source", Val.str "API")]⟩]
  else []

end Client

/-- CLAIM C2: for a not-yet-ended Trace, Span or Generation (client
enabled), the first `end()` enqueues exactly one update record, and a
second `end()` — with arbitrary other arguments and clock — enqueues
nothing and leaves every field exactly as the first call set it (the
functions are total: no error is raised). -/
theorem end_twice_single_record (t : Client.TraceState) (sp : Client.SpanState)
    (g : Client.GenerationState) (o1 o2 u1 u2 : Option Val)
    (m1 m2 : Option String) (n1 n2 : Int) (ctx ctx2 : Context.Vars)
    (ht : t.ended = false) (hs : sp.ended = false) (hg : g.ended = false) :
    ((Client.Trace.end_ true o1 n1 t ctx).2.1.length = 1 ∧
      Client.Trace.end_ true o2 n2 (Client.Trace.end_ true o1 n1 t ctx).1 ctx2
        = ((Client.Trace.end_ true o1 n1 t ctx).1, [], ctx2)) ∧
    ((Client.Span.end_ true o1 n1 sp).2.length = 1 ∧
      Client.Span.end_ true o2 n2 (Client.Span.end_ true o1 n1 sp).1
        = ((Client.Span.end_ true o1 n1 sp).1, [])) ∧
    ((Client.Generation.end_ true o1 u1 m1 n1 g).2.length = 1 ∧
      Client.Generation.end_ true o2 u2 m2 n2
          (Client.Generation.end_ true o1 u1 m1 n1 g).1
        = ((Client.Generation.end_ true o1 u1 m1 n1 g).1, [])) := by
  refine ⟨⟨?_, ?_⟩, ⟨?_, ?_⟩, ⟨?_, ?_⟩⟩ <;>
    simp [Client.Trace.end_, Client.Trace.update, Client.Span.end_,
      Client.Generation.end_, ht, hs, hg]

/-- A fresh, not-yet-ended trace used by several witnesses. -/
def Client.freshTrace : Client.TraceState :=
  { id := "t1", name := "demo", userId := none, sessionId := none,
    metadata := [], tags := [], input := none, public := false,
    startTime := 0, endTime := none, output := none, ended := false }

/-- A fresh, not-yet-ended span used by several witnesses. -/
def Client.freshSpan : Client.SpanState :=
  { traceId := "t1", id := "s1", name := "work",
    parentObservationId := none, metadata := [], input := none,
    level := "DEFAULT", output := none, startTime := 0, endTime := none,
    ended := false }

/-- A fresh, not-yet-ended generation used by several witnesses. -/
def Client.freshGeneration : Client.GenerationState :=
  { traceId := "t1", id := "g1", name := "llm-call",
    parentObservationId := none, model := some "gpt-4",
    modelParameters := [], input := none, metadata := [],
    level := "DEFAULT", output := none, startTime := 0, endTime := none,
    usage := none, ended := false }

/-- Witness for C2: the end-twice theorem applied to concrete fresh trace,
span and generation states. -/
theorem end_twice_single_record_witness :
    ((Client.Trace.end_ true none 1 Client.freshTrace ⟨none, none⟩).2.1.length = 1 ∧
      Client.Trace.end_ true none 2
          (Client.Trace.end_ true none 1 Client.freshTrace ⟨none, none⟩).1 ⟨none, none⟩
        = ((Client.Trace.end_ true none 1 Client.freshTrace ⟨none, none⟩).1, [],
            (⟨none, none⟩ : Context.Vars))) ∧
    ((Client.Span.end_ true none 1 Client.freshSpan).2.length = 1 ∧
      Client.Span.end_ true none 2
          (Client.Span.end_ true none 1 Client.freshSpan).1
        = ((Client.Span.end_ true none 1 Client.freshSpan).1, [])) ∧
    ((Client.Generation.end_ true none none none 1 Client.freshGeneration).2.length = 1 ∧
      Client.Generation.end_ true none none none 2
          (Client.Generation.end_ true none none none 1 Client.freshGeneration).1
        = ((Client.Generation.end_ true none none none 1 Client.freshGeneration).1, [])) :=
  end_twice_single_record Client.freshTrace Client.freshSpan
    Client.freshGeneration none none none none none none 1 2
    ⟨none, none⟩ ⟨none, none⟩ rfl rfl rfl

/-- An already-ended trace used as counterexample input. -/
def Client.endedTrace : Client.TraceState :=
  { id := "t1", name := "orig", userId := none, sessionId := none,
    metadata := [], tags := [], input := none, public := false,
    startTime := 0, endTime := some 1, output := none, ended := true }

/-- COUNTEREXAMPLE to C3: calling `update(name="x")` on an already-ended
trace is NOT ignored — it enqueues one `trace-update` record and changes
the trace's state (`Trace.update` never checks `self._ended`). -/
theorem update_after_end_not_ignored :
    (Client.Trace.update true { name := some "x" } Client.endedTrace).2.length = 1 ∧
    (Client.Trace.update true { name := some "x" } Client.endedTrace).1.name = "x" ∧
    Client.endedTrace.name ≠ "x" := by
  refine ⟨rfl, rfl, by decide⟩

/-- CLAIM C3 as amended: `ended` is absorbing for `end()` — on an
already-ended Trace, Span or Generation a further `end()` call returns
without enqueuing a record, without changing state, and (for Trace)
without touching the context; but `update()` after `end()` is NOT ignored:
`Trace.update` still applies the provided fields and enqueues a
`trace-update` record. -/
theorem ended_absorbing_for_end (t : Client.TraceState)
    (sp : Client.SpanState) (g : Client.GenerationState)
    (o u : Option Val) (m : Option String) (n : Int) (ctx : Context.Vars)
    (a : Client.TraceUpdateArgs)
    (ht : t.ended = true) (hs : sp.ended = true) (hg : g.ended = true) :
    Client.Trace.end_ true o n t ctx = (t, [], ctx) ∧
    Client.Span.end_ true o n sp = (sp, []) ∧
    Client.Generation.end_ true o u m n g = (g, []) ∧
    (Client.Trace.update true a t).2.length = 1 := by
  refine ⟨?_, ?_, ?_, ?_⟩ <;>
    simp [Client.Trace.end_, Client.Span.end_, Client.Generation.end_,
      Client.Trace.update, ht, hs, hg]

/-- An already-ended span used by the C3 witness. -/
def Client.endedSpan : Client.SpanState :=
  { Client.freshSpan with endTime := some 1, ended := true }

/-- An already-ended generation used by the C3 witness. -/
def Client.endedGeneration : Client.GenerationState :=
  { Client.freshGeneration with endTime := some 1, ended := true }

/-- Witness for the amended C3: the theorem applied to concrete ended
trace, span and generation states. -/
theorem ended_absorbing_for_end_witness :
    Client.Trace.end_ true none 5 Client.endedTrace ⟨some "t1", none⟩
      = (Client.endedTrace, [], (⟨some "t1", none⟩ : Context.Vars)) ∧
    Client.Span.end_ true none 5 Client.endedSpan = (Client.endedSpan, []) ∧
    Client.Generation.end_ true none none none 5 Client.endedGeneration
      = (Client.endedGeneration, []) ∧
    (Client.Trace.update true { name := some "x" } Client.endedTrace).2.length = 1 :=
  ended_absorbing_for_end Client.endedTrace Client.endedSpan
    Client.endedGeneration none none none 5 ⟨some "t1", none⟩
    { name := some "x" } rfl rfl rfl

/-- COUNTEREXAMPLE to C10: ending a trace while a DIFFERENT trace occupies
the current-trace slot does not leave that other registration unchanged:
`Trace.end()` runs `set_current_trace(None)` unconditionally, so the slot
holding trace "t2" is wiped to `None`. -/
theorem trace_end_clobbers_other_registration :
    (Client.Trace.end_ true none 1 Client.freshTrace
        ⟨some "t2", none⟩).2.2.traceVar = none ∧
    (⟨some "t2", none⟩ : Context.Vars).traceVar ≠ none := by
  exact ⟨rfl, by decide⟩

/-- CLAIM C10 as amended: `Trace.end()` on a not-yet-ended trace
unconditionally sets the Context Store's current-trace slot to `None`:
afterwards the ended trace is not the current trace, but any other trace
occupying the slot is cleared as well (its registration is not
preserved). -/
theorem trace_end_clears_current_slot (s : Client.TraceState)
    (o : Option Val) (n : Int) (ctx : Context.Vars) (en : Bool)
    (h : s.ended = false) :
    (Client.Trace.end_ en o n s ctx).2.2.traceVar = none := by
  simp [Client.Trace.end_, Client.Trace.update, h]

/-- Witness for the amended C10: ending a fresh trace with trace "t2"
current clears the slot. -/
theorem trace_end_clears_current_slot_witness :
    (Client.Trace.end_ true none 1 Client.freshTrace
        ⟨some "t2", none⟩).2.2.traceVar = none :=
  trace_end_clears_current_slot Client.freshTrace none 1
    ⟨some "t2", none⟩ true rfl

/-- CLAIM C7: with `enabled = false` every lifecycle and score call
enqueues zero event records — `_send_create`, `update`, `end` and `score`
all skip the `_batch_queue.add` call — while each call still returns
exactly the object (same attributes, same ids given the same supplied ids,
same context registration) that the `enabled = true` client would return. -/
theorem disabled_client_noop (idArg : Option String) (genId nm : String)
    (userId sessionId : Option String) (md mp : List (String × Val))
    (tags : List String) (inp o u : Option Val) (pub : Bool) (now : Int)
    (ctx : Context.Vars) (t : Client.TraceState) (sp : Client.SpanState)
    (g : Client.GenerationState) (sid gid : String) (pid : Option String)
    (model m : Option String) (lvl : String) (a : Client.TraceUpdateArgs)
    (scoreId trId : String) (v : Val) (obsId : Option String) (dt : String)
    (cm : Option String) :
    (Client.AgentTrace.trace false idArg genId nm userId sessionId md tags
        inp pub now ctx).2.1 = [] ∧
    (Client.AgentTrace.trace false idArg genId nm userId sessionId md tags
        inp pub now ctx).1
      = (Client.AgentTrace.trace true idArg genId nm userId sessionId md tags
          inp pub now ctx).1 ∧
    (Client.AgentTrace.trace false idArg genId nm userId sessionId md tags
        inp pub now ctx).2.2
      = (Client.AgentTrace.trace true idArg genId nm userId sessionId md tags
          inp pub now ctx).2.2 ∧
    (Client.Trace.span false t sid nm pid md inp lvl now).2 = [] ∧
    (Client.Trace.span false t sid nm pid md inp lvl now).1
      = (Client.Trace.span true t sid nm pid md inp lvl now).1 ∧
    (Client.Trace.generation false t gid nm pid model mp inp md lvl now).2 = [] ∧
    (Client.Trace.generation false t gid nm pid model mp inp md lvl now).1
      = (Client.Trace.generation true t gid nm pid model mp inp md lvl now).1 ∧
    (Client.Trace.update false a t).2 = [] ∧
    (Client.Trace.update false a t).1 = (Client.Trace.update true a t).1 ∧
    (Client.Trace.end_ false o now t ctx).2.1 = [] ∧
    (Client.Trace.end_ false o now t ctx).1
      = (Client.Trace.end_ true o now t ctx).1 ∧
    (Client.Span.end_ false o now sp).2 = [] ∧
    (Client.Span.end_ false o now sp).1 = (Client.Span.end_ true o now sp).1 ∧
    (Client.Generation.end_ false o u m now g).2 = [] ∧
    (Client.Generation.end_ false o u m now g).1
      = (Client.Generation.end_ true o u m now g).1 ∧
    Client.AgentTrace.score false scoreId trId nm v obsId dt cm = [] := by
  refine ⟨rfl, rfl, rfl, rfl, rfl, rfl, rfl, rfl, rfl,
    ?_, ?_, ?_, ?_, ?_, ?_, rfl⟩
  · by_cases h : t.ended <;>
      simp [Client.Trace.end_, Client.Trace.update, h]
  · by_cases h : t.ended <;>
      simp [Client.Trace.end_, Client.Trace.update, h]
  · by_cases h : sp.ended <;> simp [Client.Span.end_, h]
  · by_cases h : sp.ended <;> simp [Client.Span.end_, h]
  · by_cases h : g.ended <;> simp [Client.Generation.end_, h]
  · by_cases h : g.ended <;> simp [Client.Generation.end_, h]

namespace Decorators

/-- Outcome of the wrapped user function: a returned value, or a raised
exception identified by its message (`str(e)`); propagating the same
constructor models re-raising the same exception unchanged. -/
inductive PyResult where
  | ok (v : Val) : PyResult
  | exc (msg : String) : PyResult
deriving Repr, BEq

/-- The observation `_trace_sync` creates: a span or a generation. -/
inductive Obs where
  | span (s : Client.SpanState) : Obs
  | gen (g : Client.GenerationState) : Obs
deriving Repr

/-- `observation.end(output=...)` dispatched over the two variants
(`Generation.end` receives only `output`; usage and model default to
`None`). -/
def Obs.end_ (enabled : Bool) (output : Option Val) (now : Int) :
    Obs → Obs × List EventRecord
  | .span s =>
    let r := Client.Span.end_ enabled output now s
    (.span r.1, r.2)
  | .gen g =>
    let r := Client.Generation.end_ enabled output none none now g
    (.gen r.1, r.2)

/-- The error-shaped output `{"error": str(e)}` the wrapper records when
the wrapped function raises. -/
def errOutput (msg : String) : Val := Val.obj [("error", Val.str msg)]

/-- What the decorator sees in the Context Store: `get_current_trace()`
and the id of `get_current_observation()` (the decorator only reads
`parent_observation.id`). -/
structure DecoratorCtx where
  currentTrace : Option Client.TraceState
  currentObs : Option String
deriving Repr

/-- The outcome of one `_trace_sync` run: the propagated result, the
records enqueued in order, and the final state of whichever observation
the wrapper created and ended (the trace when it created one, an
observation otherwise). -/
structure TraceSyncOut where
  result : PyResult
  records : List EventRecord
  traceFinal : Option Client.TraceState
  obsFinal : Option Obs
deriving Repr

/-- `_trace_sync(fn, args, kwargs, name, observation_type, capture_input,
capture_output)`: with no client or a disabled client the function runs
untraced; otherwise, with no current trace a new trace is created (and
ended at the close), else a generation or span child of the current trace
is created with the current observation as parent; on normal return the
observation is ended with the (possibly uncaptured) result and the result
returned; on an exception the observation is ended with
`{"error": str(e)}` and the exception re-raised. `client` is `none` when
`get_client()` is `None`, otherwise `some enabled`; `argsVal` is the
`_capture_args` rendering of the call arguments; `newId` the generated
uuid; `now` the clock. -/
def traceSync (client : Option Bool) (ctx : DecoratorCtx) (nm : String)
    (observationType : String) (captureInput captureOutput : Bool)
    (argsVal : Val) (fnResult : PyResult) (newId : String) (now : Int) :
    TraceSyncOut :=
  match client with
  | none => ⟨fnResult, [], none, none⟩
  | some false => ⟨fnResult, [], none, none⟩
  | some true =>
    let inputData := if captureInput then some argsVal else none
    match ctx.currentTrace with
    | none =>
      let c := Client.AgentTrace.trace true none newId nm none none [] []
        inputData false now ⟨none, none⟩
      match fnResult with
      | .ok v =>
        let output := if captureOutput then some v else none
        let e := Client.Trace.end_ true output now c.1 c.2.2
        ⟨.ok v, c.2.1 ++ e.2.1, some e.1, none⟩
      | .exc msg =>
        let e := Client.Trace.end_ true (some (errOutput msg)) now c.1 c.2.2
        ⟨.exc msg, c.2.1 ++ e.2.1, some e.1, none⟩
    | some tr =>
      let parentId := ctx.currentObs
      let co : Obs × List EventRecord :=
        if observationType = "generation" then
          let r := Client.Trace.generation true tr newId nm parentId none []
            inputData [] "DEFAULT" now
          (.gen r.1, r.2)
        else
          let r := Client.Trace.span true tr newId nm parentId []
            inputData "DEFAULT" now
          (.span r.1, r.2)
      match fnResult with
      | .ok v =>
        let output := if captureOutput then some v else none
        let e := Obs.end_ true output now co.1
        ⟨.ok v, co.2 ++ e.2, none, some e.1⟩
      | .exc msg =>
        let e := Obs.end_ true (some (errOutput msg)) now co.1
        ⟨.exc msg, co.2 ++ e.2, none, some e.1⟩

end Decorators

/-- CLAIM C6: the observe wrapper never alters the wrapped function's
outcome — the returned value on success and the raised exception on
failure propagate unchanged on every path — and when the function raises,
the observation it opened (span, generation, or the trace it created) is
ended exactly once with the error-shaped output `{"error": str(e)}`:
exactly one `*-update` record is enqueued, and the final observation state
is ended with that output. -/
theorem observe_error_passthrough (client : Option Bool)
    (ctx : Decorators.DecoratorCtx) (nm obsType : String) (ci co : Bool)
    (av : Val) (fr : Decorators.PyResult) (nid : String) (now : Int)
    (tr : Client.TraceState) (pid : Option String) (msg : String) :
    (Decorators.traceSync client ctx nm obsType ci co av fr nid now).result
      = fr ∧
    ((match (Decorators.traceSync (some true) ⟨some tr, pid⟩ nm "span" ci co
          av (.exc msg) nid now).obsFinal with
      | some (.span s) =>
        s.output = some (Decorators.errOutput msg) ∧ s.ended = true
      | _ => False) ∧
      (Decorators.traceSync (some true) ⟨some tr, pid⟩ nm "span" ci co av
          (.exc msg) nid now).records.countP
          (fun rec => rec.type == "span-update") = 1) ∧
    ((match (Decorators.traceSync (some true) ⟨some tr, pid⟩ nm "generation"
          ci co av (.exc msg) nid now).obsFinal with
      | some (.gen g) =>
        g.output = some (Decorators.errOutput msg) ∧ g.ended = true
      | _ => False) ∧
      (Decorators.traceSync (some true) ⟨some tr, pid⟩ nm "generation" ci co
          av (.exc msg) nid now).records.countP
          (fun rec => rec.type == "generation-update") = 1) ∧
    ((match (Decorators.traceSync (some true) ⟨none, pid⟩ nm obsType ci co
          av (.exc msg) nid now).traceFinal with
      | some t =>
        t.output = some (Decorators.errOutput msg) ∧ t.ended = true
      | none => False) ∧
      (Decorators.traceSync (some true) ⟨none, pid⟩ nm obsType ci co av
          (.exc msg) nid now).records.countP
          (fun rec => rec.type == "trace-update") = 1) := by
  refine ⟨?_, ⟨⟨rfl, rfl⟩, rfl⟩, ⟨⟨rfl, rfl⟩, rfl⟩, ⟨⟨rfl, rfl⟩, rfl⟩⟩
  cases client with
  | none => rfl
  | some e =>
    cases e with
    | false => rfl
    | true =>
      cases h : ctx.currentTrace with
      | none => cases fr <;> simp [Decorators.traceSync, h]
      | some t => cases fr <;> simp [Decorators.traceSync, h]

/-- Modelled from the spec words of C8 for comparison with the source:
"resolving parentObservationId from Context Store's current observation if
not explicitly supplied" — the explicit argument when given, otherwise the
Context Store's current observation. -/
def specResolvedParent (explicit currentObs : Option String) : Option String :=
  match explicit with
  | some p => some p
  | none => currentObs

/-- COUNTEREXAMPLE to C8: with observation "obs-parent" current in the
Context Store and no explicitly supplied parent, `Trace.span` builds a
span whose `parentObservationId` is `None` — the source `Trace.span`
forwards its argument verbatim and never reads the Context Store — while
the spec's resolution rule yields "obs-parent". -/
theorem span_parent_not_resolved_from_context :
    (Client.Trace.span true Client.freshTrace "s1" "work" none [] none
        "DEFAULT" 1).1.parentObservationId
      ≠ specResolvedParent none (some "obs-parent") := by
  decide

/-- CLAIM C8 as amended: `Trace.span` and `Trace.generation` store exactly
the `parent_observation_id` argument they are given (default `None`),
without consulting the Context Store — so an explicitly supplied parent is
trivially what ends up in the child; the resolution from the Context
Store's current observation happens only in the observe decorator
(`_trace_sync`/`_trace_async`), which reads the current observation's id
and passes it explicitly. -/
theorem span_parent_is_supplied_argument (en : Bool) (t : Client.TraceState)
    (sid gid nm : String) (pid cur : Option String)
    (model : Option String) (md mp : List (String × Val)) (inp : Option Val)
    (lvl : String) (now : Int) (ci co : Bool) (av : Val)
    (fr : Decorators.PyResult) (nid : String) :
    (Client.Trace.span en t sid nm pid md inp lvl now).1.parentObservationId
      = pid ∧
    (Client.Trace.generation en t gid nm pid model mp inp md lvl
        now).1.parentObservationId = pid ∧
    (match (Decorators.traceSync (some true) ⟨some t, cur⟩ nm "span" ci co av
        fr nid now).obsFinal with
      | some (.span s) => s.parentObservationId = cur
      | _ => False) ∧
    (match (Decorators.traceSync (some true) ⟨some t, cur⟩ nm "generation" ci
        co av fr nid now).obsFinal with
      | some (.gen g) => g.parentObservationId = cur
      | _ => False) := by
  refine ⟨rfl, rfl, ?_, ?_⟩ <;> cases fr <;> rfl
